import Mathlib

/-!
Shallow embedding of the AG-CRM installment scheduling and settlement engine
(`src/app.py`, with the blocked-date predicate of `src/fix_datas_natal.py`).

Monetary amounts are modelled as rationals.  Python's `Decimal.quantize`
(`ROUND_HALF_EVEN`, the default) and `round(x, 2)` are modelled by `q2`,
rounding to a whole number of cents with ties to even.  Calendar dates are
modelled as day numbers counted from 1970-01-01, with `weekday` matching
Python's `date.weekday()` convention (Monday = 0, ..., Sunday = 6); the
civil-calendar conversions follow the standard Gregorian day-count algorithm.
-/

namespace AGCRM

/-- Round a rational to the nearest integer, ties to even
(the rounding used by Python's `Decimal.quantize` with `ROUND_HALF_EVEN`). -/
def rhe (x : ℚ) : ℤ :=
  let n := ⌊x⌋
  let f := x - n
  if f < 1/2 then n
  else if 1/2 < f then n + 1
  else if n % 2 = 0 then n else n + 1

/-- Quantize a monetary amount to cents, ties to even
(`Decimal.quantize(Decimal('0.01'))` in the source). -/
def q2 (x : ℚ) : ℚ := (rhe (100 * x) : ℚ) / 100

/-- An amount that is a whole number of cents. -/
def centGrain (x : ℚ) : Prop := ∃ n : ℤ, x = n / 100

/-- Calendar dates as day numbers counted from 1970-01-01. -/
abbrev Dia := ℕ

/-- Python's `date.weekday()`: Monday = 0, ..., Sunday = 6.
1970-01-01 was a Thursday (weekday 3). -/
def weekday (d : Dia) : ℕ := (d + 3) % 7

/-- Civil date (year, month, day) of a day number (standard Gregorian
day-count conversion; 719468 is the day count from 0000-03-01 to 1970-01-01). -/
def civilDoDia (d : Dia) : ℕ × ℕ × ℕ :=
  let z := d + 719468
  let era := z / 146097
  let doe := z % 146097
  let yoe := (doe - doe / 1460 + doe / 36524 - doe / 146096) / 365
  let y := yoe + era * 400
  let doy := doe - (365 * yoe + yoe / 4 - yoe / 100)
  let mp := (5 * doy + 2) / 153
  let dia := doy - (153 * mp + 2) / 5 + 1
  let m := if mp < 10 then mp + 3 else mp - 9
  (if m ≤ 2 then y + 1 else y, m, dia)

/-- Day number of a civil date (inverse of `civilDoDia` on valid dates from
1970 on). -/
def diaDeCivil (y m dia : ℕ) : Dia :=
  let y' := if m ≤ 2 then y - 1 else y
  let era := y' / 400
  let yoe := y' % 400
  let mp := (m + 9) % 12
  let doy := (153 * mp + 2) / 5 + dia - 1
  let doe := yoe * 365 + yoe / 4 - yoe / 100 + doy
  era * 146097 + doe - 719468

/-- Blocked-date predicate of `fix_datas_natal.py` (`is_data_bloqueada`):
Sundays, Dec 24, Dec 25, Dec 31 and Jan 1 of any year. -/
def is_data_bloqueada (d : Dia) : Bool :=
  let c := civilDoDia d
  weekday d == 6 ||
    (c.2.1 == 12 && (c.2.2 == 24 || c.2.2 == 25 || c.2.2 == 31)) ||
    (c.2.1 == 1 && c.2.2 == 1)

/-- One step of the Sunday-skipping `while` loop of `adicionar_cobranca`
(lines 1167-1169 of `app.py`).  Consecutive days have distinct weekdays, so
the source's `while` loop executes its body at most once and is extensionally
this single conditional step. -/
def proximo_nao_domingo (d : Dia) : Dia :=
  if weekday d = 6 then d + 1 else d

/-- A row of the `parcelas` table (the columns the engine reads/writes). -/
structure Parcela where
  numero_parcela : ℕ
  valor : ℚ
  multa_manual : Option ℚ
  valor_pago : Option ℚ
  status : String
  data_vencimento : Dia
  data_pagamento : Option Dia
  forma_pagamento : Option String
deriving DecidableEq, Repr

/-- A row of the `cobrancas` table (the columns the engine reads/writes). -/
structure Cobranca where
  valor_original : ℚ
  taxa_juros : ℚ
  valor_total : ℚ
  numero_parcelas : ℕ
  status : String
  valor_pago : Option ℚ
  data_pagamento : Option Dia
deriving DecidableEq, Repr

/-- A charge together with its installments, as created and mutated inside a
single transaction. -/
structure CobrancaComParcelas where
  cobranca : Cobranca
  parcelas : List Parcela
deriving DecidableEq, Repr

/-- Validation failures of `adicionar_cobranca` (flash + early return with no
rows written). -/
inductive ErroCobranca
  | domingoBloqueado
  | taxaInvalida
deriving DecidableEq, Repr

/-- The installment-generation loop of `adicionar_cobranca`
(lines 1163-1178): for each of `n` installments, first skip Sundays, then
emit the installment and advance the cursor by one day. -/
def gera_parcelas (valor_parcela : ℚ) : Dia → ℕ → ℕ → List Parcela
  | _, _, 0 => []
  | d, i, n + 1 =>
    let d' := proximo_nao_domingo d
    { numero_parcela := i + 1
      valor := valor_parcela
      multa_manual := none
      valor_pago := some 0
      status := "Pendente"
      data_vencimento := d'
      data_pagamento := none
      forma_pagamento := none } :: gera_parcelas valor_parcela (d' + 1) (i + 1) n

/-- `adicionar_cobranca` (`app.py` lines 1110-1192): validate that the first
due date is not a Sunday, map the rate to an installment count (30 -> 10,
60 -> 15, anything else rejected), compute the total with interest and the
per-installment value, and create the charge with its daily installments. -/
def adicionar_cobranca (valor_emprestimo taxa_juros : ℚ) (data_venc : Dia) :
    Except ErroCobranca CobrancaComParcelas :=
  if weekday data_venc = 6 then .error .domingoBloqueado
  else
    match (if taxa_juros = 30 then some 10
           else if taxa_juros = 60 then some 15
           else none : Option ℕ) with
    | none => .error .taxaInvalida
    | some numero_parcelas =>
      let valor_devido_total := valor_emprestimo * (1 + taxa_juros / 100)
      let valor_parcela := valor_devido_total / numero_parcelas
      .ok
        { cobranca :=
            { valor_original := valor_emprestimo
              taxa_juros := taxa_juros
              valor_total := valor_devido_total
              numero_parcelas := numero_parcelas
              status := "Pendente"
              valor_pago := some 0
              data_pagamento := none }
          parcelas := gera_parcelas valor_parcela data_venc 0 numero_parcelas }

/-- The charge-with-installments record that `adicionar_cobranca` creates for
a supported rate mapped to `n` installments. -/
def scheduleDe (principal taxa : ℚ) (d : Dia) (n : ℕ) : CobrancaComParcelas :=
  { cobranca :=
      { valor_original := principal
        taxa_juros := taxa
        valor_total := principal * (1 + taxa / 100)
        numero_parcelas := n
        status := "Pendente"
        valor_pago := some 0
        data_pagamento := none }
    parcelas := gera_parcelas (principal * (1 + taxa / 100) / (n : ℚ)) d 0 n }

/-- The `valor_pago` form field of the installment-payment request, after the
string handling of `app.py` lines 1361-1372: absent or blank, malformed
(not a decimal), or a parsed decimal value. -/
inductive ValorForm
  | ausente
  | invalido
  | valor (v : ℚ)
deriving DecidableEq, Repr

/-- Outcome of `marcar_parcela_paga` on a single installment.  `jaPaga`
models the early informational return for an already-settled installment,
`valorInvalido` the rejection of a malformed decimal, `semSaldo` the
informational return when the quantized amount is not positive — each of
these performs no write.  `aplicado` carries the updated installment row and
the amount applied in this transaction (also the value of the new
`historico_pagamentos` row). -/
inductive ResultadoPagamento
  | jaPaga
  | valorInvalido
  | semSaldo
  | aplicado (parcela : Parcela) (valor_recebido : ℚ)
deriving DecidableEq, Repr

/-- `valor_devido` of an installment (`app.py` lines 1345-1348): face value
plus manual penalty, treating a null penalty as 0. -/
def valor_devido (p : Parcela) : ℚ := p.valor + p.multa_manual.getD 0

/-- Existing cumulative paid amount, treating null as 0 (line 1351). -/
def valor_pago_existente (p : Parcela) : ℚ := p.valor_pago.getD 0

/-- Outstanding balance of an installment, floored at zero (line 1352). -/
def saldo_restante (p : Parcela) : ℚ :=
  max (valor_devido p - valor_pago_existente p) 0

/-- `marcar_parcela_paga` (`app.py` lines 1345-1414), the installment half of
`ApplyPayment`: early-return when already settled; reject malformed amounts;
treat an absent or non-positive amount as the full outstanding balance; clamp
to the outstanding balance; quantize to cents; update cumulative paid amount
and decide the new status with a one-cent tolerance, stamping `data_pagamento`
when the installment becomes paid. -/
def marcar_parcela_paga (p : Parcela) (input : ValorForm) (hoje : Dia) :
    ResultadoPagamento :=
  if p.status = "Pago" ∨ saldo_restante p ≤ 0 then .jaPaga
  else if input = .invalido then .valorInvalido
  else
    let saldo := saldo_restante p
    let recebido0 : ℚ :=
      match input with
      | .valor v => if v ≤ 0 then saldo else v
      | _ => saldo
    let recebido := q2 (if saldo < recebido0 then saldo else recebido0)
    if recebido ≤ 0 then .semSaldo
    else
      let total_pago := q2 (valor_pago_existente p + recebido)
      let status_novo := if valor_devido p - 1/100 ≤ total_pago then "Pago" else "Pendente"
      .aplicado
        { p with
          status := status_novo
          valor_pago := some total_pago
          forma_pagamento := some "Dinheiro"
          data_pagamento := if status_novo = "Pago" then some hoje else p.data_pagamento }
        recebido

/-- `marcar_parcela_paga` including the writes to the parent charge
(`app.py` lines 1404-1446): on a successful application, store the updated
installment, increment the charge's cumulative `valor_pago` by the amount of
this transaction, then re-read all sibling installments and, if every one is
now `Pago`, set the charge's status to `Pago` and its `data_pagamento` to
today.  Returns `none` on the no-write paths. -/
def marcar_parcela_paga_cascata (st : CobrancaComParcelas) (i : ℕ)
    (input : ValorForm) (hoje : Dia) : Option (CobrancaComParcelas × ℚ) :=
  match st.parcelas.get? i with
  | none => none
  | some p =>
    match marcar_parcela_paga p input hoje with
    | .aplicado p' recebido =>
      let parcelas' := st.parcelas.set i p'
      let cob1 := { st.cobranca with
                    valor_pago := some (st.cobranca.valor_pago.getD 0 + recebido) }
      let cob2 := if parcelas'.all (fun q => q.status == "Pago")
                  then { cob1 with status := "Pago", data_pagamento := some hoje }
                  else cob1
      some (⟨cob2, parcelas'⟩, recebido)
    | _ => none

/-- Outcome of `registrar_pagamento` on a charge.  `valorNaoPositivo` is the
warning return for a non-positive amount (no write); `registrado` carries the
updated charge and the value of the new `pagamentos` row. -/
inductive ResultadoRegistrar
  | valorNaoPositivo
  | registrado (cobranca : Cobranca) (pagamento : ℚ)
deriving DecidableEq, Repr

/-- `registrar_pagamento` (`app.py` lines 1231-1281), the charge half of
`ApplyPayment`: reject a non-positive amount before any write; otherwise
insert a payment row and add the full amount to the charge's cumulative
`valor_pago` (the source applies no clamping on this path). -/
def registrar_pagamento (c : Cobranca) (valor_a_pagar : ℚ) : ResultadoRegistrar :=
  if valor_a_pagar ≤ 0 then .valorNaoPositivo
  else .registrado
    { c with valor_pago := some (c.valor_pago.getD 0 + valor_a_pagar) }
    valor_a_pagar

/-- The `configuracoes` key-value table, restricted to the three keys read by
`calcular_valor_atualizado`; `none` models a missing key. -/
structure Configuracoes where
  dias_tolerancia : Option ℤ
  taxa_multa : Option ℚ
  taxa_juros_mensal : Option ℚ
deriving DecidableEq, Repr

/-- The charge fields read by `calcular_valor_atualizado`. -/
structure CobrancaCalc where
  status : String
  data_vencimento : Option Dia
  valor_original : ℚ
  desconto : ℚ
deriving DecidableEq, Repr

/-- The dictionary returned by `calcular_valor_atualizado`. -/
structure ValorAtualizado where
  multa : ℚ
  juros : ℚ
  valor_total : ℚ
  dias_atraso : ℕ
deriving DecidableEq, Repr

/-- `calcular_valor_atualizado` (`app.py` lines 353-400).  `hoje` is the
current calendar day and `aposMeiaNoite` records whether `datetime.now()` is
strictly past midnight, so that the source's comparison of `datetime.now()`
against the due date at `00:00` is `venc < hoje ∨ (venc = hoje ∧
aposMeiaNoite)`.  Missing configuration keys fall back to the defaults 3 days
of tolerance, a 10% penalty rate and a 2% monthly interest rate; `round(x, 2)`
is `q2`. -/
def calcular_valor_atualizado (cob : CobrancaCalc) (cfg : Configuracoes)
    (hoje : Dia) (aposMeiaNoite : Bool) : ValorAtualizado :=
  let semAcrescimo : ValorAtualizado :=
    { multa := 0, juros := 0
      valor_total := cob.valor_original - cob.desconto, dias_atraso := 0 }
  match cob.data_vencimento with
  | none => semAcrescimo
  | some venc =>
    if cob.status ≠ "Pago" ∧ (venc < hoje ∨ (venc = hoje ∧ aposMeiaNoite)) then
      let dias_atraso := hoje - venc
      let dias_tolerancia := cfg.dias_tolerancia.getD 3
      if dias_tolerancia < (dias_atraso : ℤ) then
        let taxa_multa := cfg.taxa_multa.getD 10
        let multa := cob.valor_original * (taxa_multa / 100)
        let taxa_juros := cfg.taxa_juros_mensal.getD 2
        let meses_atraso : ℚ := (dias_atraso : ℚ) / 30
        let juros := cob.valor_original * (taxa_juros / 100) * meses_atraso
        { multa := q2 multa
          juros := q2 juros
          valor_total := q2 (cob.valor_original + multa + juros - cob.desconto)
          dias_atraso := dias_atraso }
      else semAcrescimo
    else semAcrescimo

/-- Per-installment term of the dashboard aggregations (`app.py` lines 496,
531, 1979): face value plus manual penalty, null treated as 0. -/
def valor_parcela_atualizado (p : Parcela) : ℚ := p.valor + p.multa_manual.getD 0

/-- The portfolio outstanding-balance aggregation of the dashboard (`index`,
`app.py` lines 482-497) and of `api_relatorios_kpis` (lines 1965-1980), which
compute the same sum: over charges with status `Pendente`, over their
installments with status `Pendente`, of `valor + multa_manual` — the stored
`valor_pago` of the installment is not subtracted on this path.  The
per-company variant (lines 513-532) applies the same formula to the charges
of one company's clients. -/
def saldo_devedor_total (cobrancas : List CobrancaComParcelas) : ℚ :=
  ((cobrancas.filter (fun c => c.cobranca.status == "Pendente")).map (fun c =>
    ((c.parcelas.filter (fun p => p.status == "Pendente")).map
      valor_parcela_atualizado).sum)).sum

/-- The per-charge outstanding balance of the client view
(`visualizar_cliente`, `app.py` lines 891-902): over the charge's
installments with status `Pendente`, the residue
`(valor + multa_manual) - valor_pago`, clamped at zero per installment. -/
def saldo_devedor_cobranca_cliente (parcelas : List Parcela) : ℚ :=
  ((parcelas.filter (fun p => p.status == "Pendente")).map (fun p =>
    max (valor_parcela_atualizado p - p.valor_pago.getD 0) 0)).sum

/-- The outstanding-balance aggregation as the spec words it (for comparison
with `saldo_devedor_total`): over charges in scope with status `Pendente`,
over their `Pendente` installments, of
`(valor + multa_manual) - valor_pago`, clamped at zero per installment. -/
def saldo_devedor_spec (cobrancas : List CobrancaComParcelas) : ℚ :=
  ((cobrancas.filter (fun c => c.cobranca.status == "Pendente")).map (fun c =>
    saldo_devedor_cobranca_cliente c.parcelas)).sum

/-- Whether some installment of a generated schedule falls on a blocked date. -/
def parcelasBloqueadas : Except ErroCobranca CobrancaComParcelas → Bool
  | .error _ => false
  | .ok nc => nc.parcelas.any fun p => is_data_bloqueada p.data_vencimento

/-- An installment owed exactly 100.00, untouched (the tolerance-law example). -/
def parcelaC1 : Parcela :=
  { numero_parcela := 1, valor := 100, multa_manual := none, valor_pago := some 0,
    status := "Pendente", data_vencimento := 0, data_pagamento := none,
    forma_pagamento := none }

/-- `parcelaC1` after a first payment of 33.34. -/
def parcelaC1a : Parcela :=
  { numero_parcela := 1, valor := 100, multa_manual := none,
    valor_pago := some (3334 / 100), status := "Pendente", data_vencimento := 0,
    data_pagamento := none, forma_pagamento := some "Dinheiro" }

/-- `parcelaC1a` after a second payment of 66.66: fully settled. -/
def parcelaC1b : Parcela :=
  { numero_parcela := 1, valor := 100, multa_manual := none, valor_pago := some 100,
    status := "Pago", data_vencimento := 0, data_pagamento := some 0,
    forma_pagamento := some "Dinheiro" }

/-- First installment of the cascade example: already settled. -/
def parcelaC2a : Parcela :=
  { numero_parcela := 1, valor := 50, multa_manual := none, valor_pago := some 50,
    status := "Pago", data_vencimento := 10, data_pagamento := some 15,
    forma_pagamento := some "Dinheiro" }

/-- Second installment of the cascade example: still pending. -/
def parcelaC2b : Parcela :=
  { numero_parcela := 2, valor := 50, multa_manual := none, valor_pago := some 0,
    status := "Pendente", data_vencimento := 11, data_pagamento := none,
    forma_pagamento := none }

/-- `parcelaC2b` after its settling payment on day 20. -/
def parcelaC2b' : Parcela :=
  { numero_parcela := 2, valor := 50, multa_manual := none, valor_pago := some 50,
    status := "Pago", data_vencimento := 11, data_pagamento := some 20,
    forma_pagamento := some "Dinheiro" }

/-- The cascade example's charge while one installment is still pending. -/
def cobrancaC2 : Cobranca :=
  { valor_original := 100, taxa_juros := 0, valor_total := 100, numero_parcelas := 2,
    status := "Pendente", valor_pago := some 50, data_pagamento := none }

/-- The cascade example's charge after the cascade marks it paid on day 20. -/
def cobrancaC2p : Cobranca :=
  { valor_original := 100, taxa_juros := 0, valor_total := 100, numero_parcelas := 2,
    status := "Pago", valor_pago := some (50 + 50), data_pagamento := some 20 }

/-- Cascade example: a charge with one paid and one pending installment. -/
def estadoC2 : CobrancaComParcelas :=
  { cobranca := cobrancaC2, parcelas := [parcelaC2a, parcelaC2b] }

/-- The cascade example's state after the final installment is settled. -/
def estadoC2p : CobrancaComParcelas :=
  { cobranca := cobrancaC2p, parcelas := [parcelaC2a, parcelaC2b'] }

/-- The schedule created for principal 1000 at rate 30 starting Monday
2024-03-04. -/
def scheduleC3 : CobrancaComParcelas :=
  { cobranca :=
      { valor_original := 1000, taxa_juros := 30, valor_total := 1000 * (1 + 30 / 100),
        numero_parcelas := 10, status := "Pendente", valor_pago := some 0,
        data_pagamento := none }
    parcelas := gera_parcelas (1000 * (1 + 30 / 100) / ((10 : ℕ) : ℚ))
      (diaDeCivil 2024 3 4) 0 10 }

/-- The first installment of `scheduleC3`. -/
def parcelaHeadC3 : Parcela :=
  { numero_parcela := 1, valor := 1000 * (1 + 30 / 100) / ((10 : ℕ) : ℚ),
    multa_manual := none, valor_pago := some 0, status := "Pendente",
    data_vencimento := diaDeCivil 2024 3 4, data_pagamento := none,
    forma_pagamento := none }

/-- A pending charge with one pending installment of face value 100 on which
40 has already been paid. -/
def cobrancaC4 : CobrancaComParcelas :=
  { cobranca :=
      { valor_original := 100, taxa_juros := 0, valor_total := 100,
        numero_parcelas := 1, status := "Pendente", valor_pago := some 40,
        data_pagamento := none }
    parcelas :=
      [{ numero_parcela := 1, valor := 100, multa_manual := none,
         valor_pago := some 40, status := "Pendente", data_vencimento := 0,
         data_pagamento := none, forma_pagamento := none }] }

/-- A pending charge with one untouched pending installment of face value 70. -/
def cobrancaC4w : CobrancaComParcelas :=
  { cobranca :=
      { valor_original := 70, taxa_juros := 0, valor_total := 70,
        numero_parcelas := 1, status := "Pendente", valor_pago := some 0,
        data_pagamento := none }
    parcelas :=
      [{ numero_parcela := 1, valor := 70, multa_manual := none,
         valor_pago := some 0, status := "Pendente", data_vencimento := 0,
         data_pagamento := none, forma_pagamento := none }] }

/-- A pending installment owed 80.00, untouched. -/
def parcelaC6 : Parcela :=
  { numero_parcela := 1, valor := 80, multa_manual := none, valor_pago := some 0,
    status := "Pendente", data_vencimento := 0, data_pagamento := none,
    forma_pagamento := none }

/-- `parcelaC6` after the payment request with amount -5 on day 5: fully
settled rather than rejected. -/
def parcelaC6p : Parcela :=
  { numero_parcela := 1, valor := 80, multa_manual := none, valor_pago := some 80,
    status := "Pago", data_vencimento := 0, data_pagamento := some 5,
    forma_pagamento := some "Dinheiro" }

/-- A pending charge used for the charge-level payment examples. -/
def cobrancaC6 : Cobranca :=
  { valor_original := 100, taxa_juros := 0, valor_total := 100, numero_parcelas := 1,
    status := "Pendente", valor_pago := some 0, data_pagamento := none }

/-- A pending charge owed 100.00 in total with nothing paid. -/
def cobrancaC7 : Cobranca :=
  { valor_original := 100, taxa_juros := 0, valor_total := 100, numero_parcelas := 1,
    status := "Pendente", valor_pago := some 0, data_pagamento := none }

/-- `cobrancaC7` after a charge-level payment of 150: the stored paid amount
exceeds the 100.00 owed. -/
def cobrancaC7p : Cobranca :=
  { valor_original := 100, taxa_juros := 0, valor_total := 100, numero_parcelas := 1,
    status := "Pendente", valor_pago := some 150, data_pagamento := none }

/-- A pending installment owed 100.00 with 40.00 already paid. -/
def parcelaC7 : Parcela :=
  { numero_parcela := 1, valor := 100, multa_manual := none, valor_pago := some 40,
    status := "Pendente", data_vencimento := 0, data_pagamento := none,
    forma_pagamento := none }

/-- `parcelaC7` after a payment request of 70 on day 0: clamped to the
outstanding 60 and fully settled. -/
def parcelaC7p : Parcela :=
  { numero_parcela := 1, valor := 100, multa_manual := none, valor_pago := some 100,
    status := "Pago", data_vencimento := 0, data_pagamento := some 0,
    forma_pagamento := some "Dinheiro" }

/-- An installment already marked paid. -/
def parcelaC8 : Parcela :=
  { numero_parcela := 1, valor := 30, multa_manual := none, valor_pago := some 30,
    status := "Pago", data_vencimento := 0, data_pagamento := some 0,
    forma_pagamento := some "Dinheiro" }

/-- A pending flat charge of 200.00 due on day 100, no discount. -/
def cobrancaC9 : CobrancaCalc :=
  { status := "Pendente", data_vencimento := some 100, valor_original := 200,
    desconto := 0 }

/-- A fully populated configuration: 3 tolerance days, 10% penalty, 2%
monthly interest. -/
def cfgC9 : Configuracoes :=
  { dias_tolerancia := some 3, taxa_multa := some 10, taxa_juros_mensal := some 2 }

/-- A pending installment owed 55.00 with 5.00 already paid. -/
def parcelaC10 : Parcela :=
  { numero_parcela := 1, valor := 55, multa_manual := none, valor_pago := some 5,
    status := "Pendente", data_vencimento := 0, data_pagamento := none,
    forma_pagamento := none }

/-- A pending installment with face value 80.004 and exactly 80.00 paid: a
positive outstanding balance of 0.004, below half a cent. -/
def parcelaC10x : Parcela :=
  { numero_parcela := 1, valor := 80 + 1 / 250, multa_manual := none,
    valor_pago := some 80, status := "Pendente", data_vencimento := 0,
    data_pagamento := none, forma_pagamento := none }

theorem rhe_intCast (n : ℤ) : rhe (n : ℚ) = n := by
  unfold rhe
  simp only [Int.floor_intCast]
  have h0 : (n : ℚ) - n = 0 := by ring
  rw [h0]
  norm_num

theorem centGrain_q2 (x : ℚ) : centGrain (q2 x) := ⟨rhe (100 * x), rfl⟩

theorem q2_eq_self {x : ℚ} (h : centGrain x) : q2 x = x := by
  obtain ⟨n, rfl⟩ := h
  unfold q2
  have h1 : (100 : ℚ) * (n / 100) = n := by field_simp
  rw [h1, rhe_intCast]

theorem centGrain.add {x y : ℚ} (hx : centGrain x) (hy : centGrain y) :
    centGrain (x + y) := by
  obtain ⟨a, rfl⟩ := hx
  obtain ⟨b, rfl⟩ := hy
  exact ⟨a + b, by push_cast; ring⟩

theorem centGrain.sub {x y : ℚ} (hx : centGrain x) (hy : centGrain y) :
    centGrain (x - y) := by
  obtain ⟨a, rfl⟩ := hx
  obtain ⟨b, rfl⟩ := hy
  exact ⟨a - b, by push_cast; ring⟩

theorem centGrain.max {x y : ℚ} (hx : centGrain x) (hy : centGrain y) :
    centGrain (max x y) := by
  rcases max_choice x y with h | h <;> rw [h]
  · exact hx
  · exact hy

theorem centGrain.min {x y : ℚ} (hx : centGrain x) (hy : centGrain y) :
    centGrain (min x y) := by
  rcases min_choice x y with h | h <;> rw [h]
  · exact hx
  · exact hy

theorem centGrain_zero : centGrain 0 := ⟨0, by norm_num⟩

theorem rhe_bounds (x : ℚ) : x - 1/2 ≤ (rhe x : ℚ) ∧ (rhe x : ℚ) ≤ x + 1/2 := by
  have h1 : (⌊x⌋ : ℚ) ≤ x := Int.floor_le x
  have h2 : x < ⌊x⌋ + 1 := Int.lt_floor_add_one x
  simp only [rhe]
  split_ifs with hf1 hf2 hn
  · constructor <;> linarith
  · push_cast
    constructor <;> linarith
  · have hf : x - (⌊x⌋ : ℚ) = 1/2 := le_antisymm (not_lt.mp hf2) (not_lt.mp hf1)
    constructor <;> linarith
  · have hf : x - (⌊x⌋ : ℚ) = 1/2 := le_antisymm (not_lt.mp hf2) (not_lt.mp hf1)
    push_cast
    constructor <;> linarith

theorem q2_bounds (x : ℚ) : x - 1/200 ≤ q2 x ∧ q2 x ≤ x + 1/200 := by
  obtain ⟨h1, h2⟩ := rhe_bounds (100 * x)
  unfold q2
  constructor <;> linarith

theorem weekday_proximo_nao_domingo (d : Dia) :
    weekday (proximo_nao_domingo d) ≠ 6 := by
  unfold proximo_nao_domingo weekday
  split
  · omega
  · omega

theorem gera_parcelas_length (v : ℚ) :
    ∀ (d : Dia) (i n : ℕ), (gera_parcelas v d i n).length = n := by
  intro d i n
  induction n generalizing d i with
  | zero => rfl
  | succ n ih => simp [gera_parcelas, ih]

theorem gera_parcelas_get? (v : ℚ) :
    ∀ (d : Dia) (i n j : ℕ) (p : Parcela),
      (gera_parcelas v d i n).get? j = some p →
      p.valor = v ∧ weekday p.data_vencimento ≠ 6 := by
  intro d i n
  induction n generalizing d i with
  | zero => intro j p h; simp [gera_parcelas] at h
  | succ n ih =>
    intro j p h
    cases j with
    | zero =>
      simp only [gera_parcelas, List.get?] at h
      cases h
      exact ⟨rfl, weekday_proximo_nao_domingo d⟩
    | succ j =>
      simp only [gera_parcelas, List.get?] at h
      exact ih _ _ j p h

theorem marcar_parcela_paga_inv (p : Parcela) (input : ValorForm) (hoje : Dia)
    (p' : Parcela) (v : ℚ)
    (h : marcar_parcela_paga p input hoje = .aplicado p' v) :
    ∃ r0 : ℚ,
      (input = .ausente → r0 = saldo_restante p) ∧
      (∀ w, input = .valor w → r0 = if w ≤ 0 then saldo_restante p else w) ∧
      v = q2 (if saldo_restante p < r0 then saldo_restante p else r0) ∧
      ¬ v ≤ 0 ∧ ¬ (p.status = "Pago" ∨ saldo_restante p ≤ 0) ∧
      input ≠ ValorForm.invalido ∧
      p' = { p with
        status := if valor_devido p - 1 / 100 ≤ q2 (valor_pago_existente p + v)
                  then "Pago" else "Pendente"
        valor_pago := some (q2 (valor_pago_existente p + v))
        forma_pagamento := some "Dinheiro"
        data_pagamento := if valor_devido p - 1 / 100 ≤ q2 (valor_pago_existente p + v)
                          then some hoje else p.data_pagamento } := by
  simp only [marcar_parcela_paga] at h
  by_cases hguard : p.status = "Pago" ∨ saldo_restante p ≤ 0
  · rw [if_pos hguard] at h
    exact absurd h (by simp)
  rw [if_neg hguard] at h
  by_cases hinv : input = ValorForm.invalido
  · rw [if_pos hinv] at h
    exact absurd h (by simp)
  rw [if_neg hinv] at h
  cases input with
  | invalido => exact absurd rfl hinv
  | ausente =>
    dsimp only at h
    rw [if_neg (lt_irrefl (saldo_restante p))] at h
    by_cases hpos : q2 (saldo_restante p) ≤ 0
    · rw [if_pos hpos] at h
      exact absurd h (by simp)
    rw [if_neg hpos] at h
    rw [ResultadoPagamento.aplicado.injEq] at h
    obtain ⟨hp', hv⟩ := h
    subst hv
    subst hp'
    refine ⟨saldo_restante p, fun _ => rfl, ?_, ?_, hpos, hguard, hinv, ?_⟩
    · intro w hw
      exact absurd hw (by simp)
    · rw [if_neg (lt_irrefl (saldo_restante p))]
    · by_cases hcond : valor_devido p - 1 / 100 ≤
          q2 (valor_pago_existente p + q2 (saldo_restante p))
      · simp only [if_pos hcond]
        simp
      · simp only [if_neg hcond]
        simp
  | valor w =>
    dsimp only at h
    by_cases hw : w ≤ 0
    · rw [if_pos hw, if_neg (lt_irrefl (saldo_restante p))] at h
      by_cases hpos : q2 (saldo_restante p) ≤ 0
      · rw [if_pos hpos] at h
        exact absurd h (by simp)
      rw [if_neg hpos] at h
      rw [ResultadoPagamento.aplicado.injEq] at h
      obtain ⟨hp', hv⟩ := h
      subst hv
      subst hp'
      refine ⟨if w ≤ 0 then saldo_restante p else w, ?_, ?_, ?_, hpos, hguard, hinv, ?_⟩
      · intro hx
        exact absurd hx (by simp)
      · intro w' hw'
        rw [ValorForm.valor.injEq] at hw'
        subst hw'
        rfl
      · rw [if_pos hw, if_neg (lt_irrefl (saldo_restante p))]
      · by_cases hcond : valor_devido p - 1 / 100 ≤
            q2 (valor_pago_existente p + q2 (saldo_restante p))
        · simp only [if_pos hcond]
          simp
        · simp only [if_neg hcond]
          simp
    · rw [if_neg hw] at h
      by_cases hpos : q2 (if saldo_restante p < w then saldo_restante p else w) ≤ 0
      · rw [if_pos hpos] at h
        exact absurd h (by simp)
      rw [if_neg hpos] at h
      rw [ResultadoPagamento.aplicado.injEq] at h
      obtain ⟨hp', hv⟩ := h
      subst hv
      subst hp'
      refine ⟨if w ≤ 0 then saldo_restante p else w, ?_, ?_, ?_, hpos, hguard, hinv, ?_⟩
      · intro hx
        exact absurd hx (by simp)
      · intro w' hw'
        rw [ValorForm.valor.injEq] at hw'
        subst hw'
        rfl
      · rw [if_neg hw]
      · by_cases hcond : valor_devido p - 1 / 100 ≤
            q2 (valor_pago_existente p +
              q2 (if saldo_restante p < w then saldo_restante p else w))
        · simp only [if_pos hcond]
          simp
        · simp only [if_neg hcond]
          simp

theorem marcar_valor_nao_positivo (p : Parcela) (hoje : Dia) (v : ℚ)
    (hv : v ≤ 0) :
    marcar_parcela_paga p (.valor v) hoje = marcar_parcela_paga p .ausente hoje := by
  simp only [marcar_parcela_paga]
  by_cases hguard : p.status = "Pago" ∨ saldo_restante p ≤ 0
  · rw [if_pos hguard, if_pos hguard]
  · rw [if_neg hguard, if_neg hguard,
      if_neg (by simp : ¬(ValorForm.valor v = ValorForm.invalido)),
      if_neg (by simp : ¬(ValorForm.ausente = ValorForm.invalido))]
    rw [if_pos hv]

/-- C3 counterexample: the schedule generated for principal 100 at rate 30
starting Monday 2024-12-23 contains an installment on a blocked date — its
second installment falls on 2024-12-24, because `adicionar_cobranca` skips
only Sundays when generating due dates. -/
theorem C3_counterexample :
    parcelasBloqueadas (adicionar_cobranca 100 30 (diaDeCivil 2024 12 23)) = true ∧
    (adicionar_cobranca 100 30 (diaDeCivil 2024 12 23)).map
      (fun nc => (nc.parcelas.get? 1).map (fun p => civilDoDia p.data_vencimento)) =
      Except.ok (some (2024, 12, 24)) := by
  exact ⟨rfl, rfl⟩

/-- C3 (amended): every installment due date generated by
`adicionar_cobranca` avoids Sundays; the fixed year-end blocked days
(Dec 24, Dec 25, Dec 31, Jan 1) are not avoided at generation time — they
are only repaired afterwards by the separate `fix_datas_natal.py` migration
script. -/
theorem C3_parcelas_nunca_domingo (principal taxa : ℚ) (d : Dia)
    (nc : CobrancaComParcelas) (h : adicionar_cobranca principal taxa d = .ok nc)
    (j : ℕ) (p : Parcela) (hp : nc.parcelas.get? j = some p) :
    weekday p.data_vencimento ≠ 6 := by
  unfold adicionar_cobranca at h
  split at h
  · exact absurd h (by simp)
  · split at h
    · exact absurd h (by simp)
    · rw [Except.ok.injEq] at h
      subst h
      exact (gera_parcelas_get? _ _ _ _ _ _ hp).2

/-- Witness for C3 (amended): the schedule for principal 1000 at rate 30
starting Monday 2024-03-04 has its first installment on a non-Sunday. -/
theorem C3_parcelas_nunca_domingo_witness :
    adicionar_cobranca 1000 30 (diaDeCivil 2024 3 4) = Except.ok scheduleC3 ∧
    scheduleC3.parcelas.get? 0 = some parcelaHeadC3 ∧
    weekday parcelaHeadC3.data_vencimento ≠ 6 :=
  ⟨rfl, rfl,
    C3_parcelas_nunca_domingo 1000 30 (diaDeCivil 2024 3 4) scheduleC3 rfl 0
      parcelaHeadC3 rfl⟩

/-- C5: `adicionar_cobranca` maps rate 30 to a charge of
`principal × (1 + 30/100)` in exactly 10 installments of identical face
value `total / 10`, rate 60 to `principal × (1 + 60/100)` in exactly 15
installments of face value `total / 15`, and rejects any other rate with an
invalid-rate error, creating no rows (stated for a first due date that is
not a Sunday, which is validated before the rate). -/
theorem C5_taxas (principal taxa : ℚ) (d : Dia) (hd : weekday d ≠ 6) :
    (∃ nc, adicionar_cobranca principal 30 d = Except.ok nc ∧
       nc.cobranca.valor_total = principal * (1 + 30 / 100) ∧
       nc.cobranca.numero_parcelas = 10 ∧ nc.parcelas.length = 10 ∧
       ∀ j p, nc.parcelas.get? j = some p → p.valor = nc.cobranca.valor_total / 10) ∧
    (∃ nc, adicionar_cobranca principal 60 d = Except.ok nc ∧
       nc.cobranca.valor_total = principal * (1 + 60 / 100) ∧
       nc.cobranca.numero_parcelas = 15 ∧ nc.parcelas.length = 15 ∧
       ∀ j p, nc.parcelas.get? j = some p → p.valor = nc.cobranca.valor_total / 15) ∧
    (taxa ≠ 30 → taxa ≠ 60 →
       adicionar_cobranca principal taxa d = Except.error .taxaInvalida) := by
  refine ⟨⟨scheduleDe principal 30 d 10, ?_, rfl, rfl,
            gera_parcelas_length _ _ _ _, ?_⟩,
          ⟨scheduleDe principal 60 d 15, ?_, rfl, rfl,
            gera_parcelas_length _ _ _ _, ?_⟩, ?_⟩
  · unfold adicionar_cobranca scheduleDe
    rw [if_neg hd]
    rfl
  · intro j p hp
    rw [(gera_parcelas_get? _ _ _ _ _ _ hp).1]
    norm_num [scheduleDe]
  · unfold adicionar_cobranca scheduleDe
    rw [if_neg hd]
    rfl
  · intro j p hp
    rw [(gera_parcelas_get? _ _ _ _ _ _ hp).1]
    norm_num [scheduleDe]
  · intro h30 h60
    unfold adicionar_cobranca
    rw [if_neg hd, if_neg h30, if_neg h60]

/-- Witness for C5: starting Monday 2024-03-04, the unsupported rate 45 is
rejected with the invalid-rate error. -/
theorem C5_taxas_witness :
    adicionar_cobranca 1000 45 (diaDeCivil 2024 3 4) =
      Except.error ErroCobranca.taxaInvalida :=
  (C5_taxas 1000 45 (diaDeCivil 2024 3 4) (by decide)).2.2
    (by norm_num) (by norm_num)

/-- C1: whenever `marcar_parcela_paga` applies a payment to a pending
installment (and the previously stored paid amount is a whole number of
cents, as every amount this path ever stores is), the new cumulative paid
amount is exactly the old amount plus the amount applied, and the new status
is `Pago` precisely when that new total reaches `totalOwed - 0.01`, with
`totalOwed` the face value plus the manual penalty (0 when null); in
particular, on an installment owed exactly 100.00, successive payments of
33.34 and 66.66 leave it `Pago`. -/
theorem C1_tolerancia_pagamento (p : Parcela) (input : ValorForm) (hoje : Dia)
    (p' : Parcela) (v : ℚ)
    (hg : centGrain (valor_pago_existente p))
    (h : marcar_parcela_paga p input hoje = .aplicado p' v) :
    (p'.valor_pago = some (valor_pago_existente p + v) ∧
     p'.status = if valor_devido p - 1 / 100 ≤ valor_pago_existente p + v
                 then "Pago" else "Pendente") ∧
    (marcar_parcela_paga parcelaC1 (.valor (3334 / 100)) 0 =
       .aplicado parcelaC1a (3334 / 100) ∧
     marcar_parcela_paga parcelaC1a (.valor (6666 / 100)) 0 =
       .aplicado parcelaC1b (6666 / 100) ∧
     parcelaC1b.status = "Pago") := by
  obtain ⟨r0, -, -, hv, -, -, -, hp'⟩ := marcar_parcela_paga_inv p input hoje p' v h
  have hgv : centGrain v := by
    rw [hv]
    exact centGrain_q2 _
  have hq : q2 (valor_pago_existente p + v) = valor_pago_existente p + v :=
    q2_eq_self (hg.add hgv)
  refine ⟨?_, ?_, ?_, rfl⟩
  · subst hp'
    constructor
    · simp [hq]
    · simp [hq]
  · norm_num [marcar_parcela_paga, q2, rhe, saldo_restante, valor_devido,
      valor_pago_existente, parcelaC1, parcelaC1a, max_def]
    simp
  · norm_num [marcar_parcela_paga, q2, rhe, saldo_restante, valor_devido,
      valor_pago_existente, parcelaC1a, parcelaC1b, max_def]
    simp

/-- Witness for C1: the first 33.34 payment on the installment owed 100.00,
with the stated cumulative-paid and status equations instantiated. -/
theorem C1_tolerancia_pagamento_witness :
    parcelaC1a.valor_pago = some (valor_pago_existente parcelaC1 + 3334 / 100) ∧
    parcelaC1a.status = if valor_devido parcelaC1 - 1 / 100 ≤
        valor_pago_existente parcelaC1 + 3334 / 100 then "Pago" else "Pendente" :=
  (C1_tolerancia_pagamento parcelaC1 (.valor (3334 / 100)) 0 parcelaC1a (3334 / 100)
    ⟨0, by norm_num [valor_pago_existente, parcelaC1]⟩
    (by
      norm_num [marcar_parcela_paga, q2, rhe, saldo_restante, valor_devido,
        valor_pago_existente, parcelaC1, parcelaC1a, max_def]
      simp)).1

/-- C6 counterexample: on an installment target, a payment request with the
non-positive amount -5 is not rejected — `marcar_parcela_paga` applies the
full outstanding 80.00, changing `valor_pago` and `status` and recording a
payment, contradicting the claim that every target rejects
`amountReceived <= 0` with no mutation. -/
theorem C6_counterexample :
    marcar_parcela_paga parcelaC6 (.valor (-5)) 5 = .aplicado parcelaC6p 80 ∧
    parcelaC6p.valor_pago ≠ parcelaC6.valor_pago ∧
    parcelaC6p.status ≠ parcelaC6.status := by
  refine ⟨?_, ?_, ?_⟩
  · norm_num [marcar_parcela_paga, q2, rhe, saldo_restante, valor_devido,
      valor_pago_existente, parcelaC6, parcelaC6p, max_def]
    simp
  · norm_num [parcelaC6, parcelaC6p]
  · simp [parcelaC6, parcelaC6p]

/-- C6 (amended): only the charge-level payment path (`registrar_pagamento`)
rejects a non-positive amount before any write; the installment-level path
treats a non-positive or absent amount as "pay the full outstanding balance",
and rejects only a malformed (non-decimal) amount, which — like the
already-settled early return — performs no write. -/
theorem C6_rejeicao_valores (c : Cobranca) (p : Parcela) (hoje : Dia) (v : ℚ)
    (hv : v ≤ 0) :
    registrar_pagamento c v = .valorNaoPositivo ∧
    marcar_parcela_paga p (.valor v) hoje = marcar_parcela_paga p .ausente hoje ∧
    (marcar_parcela_paga p .invalido hoje = .jaPaga ∨
     marcar_parcela_paga p .invalido hoje = .valorInvalido) := by
  refine ⟨?_, marcar_valor_nao_positivo p hoje v hv, ?_⟩
  · unfold registrar_pagamento
    rw [if_pos hv]
  · by_cases hguard : p.status = "Pago" ∨ saldo_restante p ≤ 0
    · left
      simp only [marcar_parcela_paga]
      rw [if_pos hguard]
    · right
      simp only [marcar_parcela_paga]
      rw [if_neg hguard]
      simp

/-- Witness for C6 (amended): a charge-level payment of -3 is rejected with
the non-positive-amount warning. -/
theorem C6_rejeicao_valores_witness :
    registrar_pagamento cobrancaC6 (-3) = .valorNaoPositivo :=
  (C6_rejeicao_valores cobrancaC6 parcelaC6 0 (-3) (by norm_num)).1

/-- C7 counterexample: the charge-level payment path applies no clamp — a
payment of 150 on a charge owed 100.00 in total leaves a stored cumulative
`valor_pago` of 150, exceeding what is owed. -/
theorem C7_counterexample :
    registrar_pagamento cobrancaC7 150 = .registrado cobrancaC7p 150 ∧
    cobrancaC7.valor_total = 100 ∧
    cobrancaC7p.valor_pago = some 150 ∧
    ¬ (150 : ℚ) ≤ 100 := by
  refine ⟨?_, rfl, rfl, by norm_num⟩
  unfold registrar_pagamento
  rw [if_neg (by norm_num : ¬ (150 : ℚ) ≤ 0)]
  norm_num [cobrancaC7, cobrancaC7p]

/-- C7 (amended): clamping to the outstanding balance happens only on the
installment path: when `marcar_parcela_paga` applies a payment (with the
stored amounts and a submitted amount in whole cents), the amount applied
never exceeds the installment's outstanding balance, and the updated
cumulative `valor_pago` never exceeds the installment's total owed; the
charge-level `registrar_pagamento` path applies no clamp (see the
counterexample). -/
theorem C7_clamp_parcela (p : Parcela) (input : ValorForm) (hoje : Dia)
    (p' : Parcela) (v : ℚ)
    (hgv : centGrain p.valor) (hgm : centGrain (p.multa_manual.getD 0))
    (hgp : centGrain (valor_pago_existente p))
    (hgi : ∀ w, input = .valor w → centGrain w)
    (h : marcar_parcela_paga p input hoje = .aplicado p' v) :
    v ≤ saldo_restante p ∧ p'.valor_pago.getD 0 ≤ valor_devido p := by
  obtain ⟨r0, hr0a, hr0v, hv, -, hguard, hinv, hp'⟩ :=
    marcar_parcela_paga_inv p input hoje p' v h
  have hgs : centGrain (saldo_restante p) :=
    ((hgv.add hgm).sub hgp).max centGrain_zero
  have hgr0 : centGrain r0 := by
    cases input with
    | invalido => exact absurd rfl hinv
    | ausente =>
      rw [hr0a rfl]
      exact hgs
    | valor w =>
      rw [hr0v w rfl]
      split
      · exact hgs
      · exact hgi w rfl
  have hgc : centGrain (if saldo_restante p < r0 then saldo_restante p else r0) := by
    split
    · exact hgs
    · exact hgr0
  have hv' : v = if saldo_restante p < r0 then saldo_restante p else r0 := by
    rw [hv, q2_eq_self hgc]
  have hclamp : v ≤ saldo_restante p := by
    rw [hv']
    split
    · exact le_refl _
    next hns => exact le_of_not_lt hns
  have hspos : 0 < saldo_restante p := by
    rcases not_or.mp hguard with ⟨-, hs⟩
    exact lt_of_not_le hs
  have hsaldo_eq : saldo_restante p = valor_devido p - valor_pago_existente p := by
    unfold saldo_restante at hspos ⊢
    rcases le_or_lt (valor_devido p - valor_pago_existente p) 0 with hle | hlt
    · rw [max_eq_right hle] at hspos
      exact absurd hspos (lt_irrefl 0)
    · exact max_eq_left hlt.le
  refine ⟨hclamp, ?_⟩
  have hgvv : centGrain v := by
    rw [hv']
    exact hgc
  subst hp'
  simp only [Option.getD_some]
  rw [q2_eq_self (hgp.add hgvv)]
  rw [hsaldo_eq] at hclamp
  linarith

/-- Witness for C7 (amended): a 70.00 request on an installment with
outstanding balance 60.00 is clamped — the amount applied is 60.00 and the
stored paid amount ends at the 100.00 owed. -/
theorem C7_clamp_parcela_witness :
    (60 : ℚ) ≤ saldo_restante parcelaC7 ∧
    parcelaC7p.valor_pago.getD 0 ≤ valor_devido parcelaC7 :=
  C7_clamp_parcela parcelaC7 (.valor 70) 0 parcelaC7p 60
    ⟨10000, by norm_num [parcelaC7]⟩
    ⟨0, by norm_num [parcelaC7]⟩
    ⟨4000, by norm_num [valor_pago_existente, parcelaC7]⟩
    (fun w hw => by
      rw [ValorForm.valor.injEq] at hw
      exact ⟨7000, by norm_num [← hw]⟩)
    (by
      norm_num [marcar_parcela_paga, q2, rhe, saldo_restante, valor_devido,
        valor_pago_existente, parcelaC7, parcelaC7p, max_def]
      simp)

/-- C8: `marcar_parcela_paga` on an installment that is already `Pago` (or
whose outstanding balance is not positive) returns the informational
already-paid result for every submitted amount, performing no write: no
`valor_pago` change, no status change and no payment row. -/
theorem C8_ja_paga (p : Parcela) (input : ValorForm) (hoje : Dia)
    (h : p.status = "Pago" ∨ saldo_restante p ≤ 0) :
    marcar_parcela_paga p input hoje = .jaPaga := by
  simp only [marcar_parcela_paga]
  rw [if_pos h]

/-- Witness for C8: a positive 10.00 payment on an already-paid installment
is the informational no-op. -/
theorem C8_ja_paga_witness :
    marcar_parcela_paga parcelaC8 (.valor 10) 3 = .jaPaga :=
  C8_ja_paga parcelaC8 (.valor 10) 3 (Or.inl rfl)

/-- C10 counterexample: a pending installment with the positive outstanding
balance 0.004 (face value 80.004, 80.00 paid) and an absent amount does not
become `Pago` in that call — the quantized amount is 0.00, so the call takes
the informational no-balance return and writes nothing. -/
theorem C10_counterexample :
    marcar_parcela_paga parcelaC10x .ausente 3 = .semSaldo ∧
    parcelaC10x.status = "Pendente" ∧
    0 < saldo_restante parcelaC10x := by
  refine ⟨?_, rfl, ?_⟩
  · norm_num [marcar_parcela_paga, q2, rhe, saldo_restante, valor_devido,
      valor_pago_existente, parcelaC10x, max_def]
    simp
  · norm_num [saldo_restante, valor_devido, valor_pago_existente, parcelaC10x,
      max_def]

/-- C10 (amended): on a pending installment with a positive outstanding
balance, a payment request whose amount is absent (or non-positive, which
the parser coerces to absent) is never rejected and the cent-quantized
outstanding balance is taken as the amount: when that quantized balance is
positive (in particular whenever the balance is at least one cent) it is
applied in full and the installment becomes `Pago` in that single call,
stamped with today's date; when the balance is positive but quantizes to
zero (below half a cent) the call returns the informational no-balance
result and writes nothing. -/
theorem C10_quitacao_quantizada (p : Parcela) (input : ValorForm) (hoje : Dia)
    (hs : p.status ≠ "Pago")
    (hin : input = .ausente ∨ ∃ v, input = .valor v ∧ v ≤ 0)
    (hsal : 0 < saldo_restante p) :
    (0 < q2 (saldo_restante p) →
       marcar_parcela_paga p input hoje =
         .aplicado { p with
           status := "Pago"
           valor_pago := some (q2 (valor_pago_existente p + q2 (saldo_restante p)))
           forma_pagamento := some "Dinheiro"
           data_pagamento := some hoje }
           (q2 (saldo_restante p))) ∧
    (q2 (saldo_restante p) ≤ 0 →
       marcar_parcela_paga p input hoje = .semSaldo) := by
  have hguard : ¬ (p.status = "Pago" ∨ saldo_restante p ≤ 0) := by
    push_neg
    exact ⟨hs, not_le.mp (not_le.mpr hsal)⟩
  have hsaldo_eq : saldo_restante p = valor_devido p - valor_pago_existente p := by
    unfold saldo_restante at hsal ⊢
    rcases le_or_lt (valor_devido p - valor_pago_existente p) 0 with hle | hlt
    · rw [max_eq_right hle] at hsal
      exact absurd hsal (lt_irrefl 0)
    · exact max_eq_left hlt.le
  have key1 : 0 < q2 (saldo_restante p) →
      marcar_parcela_paga p .ausente hoje =
        .aplicado { p with
          status := "Pago"
          valor_pago := some (q2 (valor_pago_existente p + q2 (saldo_restante p)))
          forma_pagamento := some "Dinheiro"
          data_pagamento := some hoje }
          (q2 (saldo_restante p)) := by
    intro hq
    simp only [marcar_parcela_paga]
    rw [if_neg hguard,
      if_neg (by simp : ¬(ValorForm.ausente = ValorForm.invalido)),
      if_neg (lt_irrefl (saldo_restante p)), if_neg (not_le.mpr hq)]
    have hcond : valor_devido p - 1 / 100 ≤
        q2 (valor_pago_existente p + q2 (saldo_restante p)) := by
      obtain ⟨hb1, -⟩ := q2_bounds (valor_pago_existente p + q2 (saldo_restante p))
      obtain ⟨hb2, -⟩ := q2_bounds (saldo_restante p)
      linarith [hsaldo_eq]
    rw [if_pos hcond]
    simp
  have key2 : q2 (saldo_restante p) ≤ 0 →
      marcar_parcela_paga p .ausente hoje = .semSaldo := by
    intro hq
    simp only [marcar_parcela_paga]
    rw [if_neg hguard,
      if_neg (by simp : ¬(ValorForm.ausente = ValorForm.invalido)),
      if_neg (lt_irrefl (saldo_restante p)), if_pos hq]
  rcases hin with hin | ⟨v, hin, hv⟩
  · rw [hin]
    exact ⟨key1, key2⟩
  · rw [hin, marcar_valor_nao_positivo p hoje v hv]
    exact ⟨key1, key2⟩

/-- Witness for C10 (amended): an absent amount on the pending installment
owed 55.00 with 5.00 paid settles it in one call, applying the quantized
outstanding balance of 50.00. -/
theorem C10_quitacao_quantizada_witness :
    marcar_parcela_paga parcelaC10 .ausente 3 =
      .aplicado { parcelaC10 with
        status := "Pago"
        valor_pago := some (q2 (valor_pago_existente parcelaC10 +
          q2 (saldo_restante parcelaC10)))
        forma_pagamento := some "Dinheiro"
        data_pagamento := some 3 }
        (q2 (saldo_restante parcelaC10)) :=
  (C10_quitacao_quantizada parcelaC10 .ausente 3 (by decide) (Or.inl rfl)
    (by norm_num [saldo_restante, valor_devido, valor_pago_existente,
      parcelaC10, max_def])).1
    (by norm_num [q2, rhe, saldo_restante, valor_devido, valor_pago_existente,
      parcelaC10, max_def])

/-- C2: after a successful installment payment,
`marcar_parcela_paga_cascata` re-checks all sibling installments in the
post-update state: if every one is `Pago`, the charge's status is set to
`Pago` and its `data_pagamento` to today; if at least one sibling is still
`Pendente`, the charge's status and payment date are left unchanged.
Moreover a payment aimed at an installment that is already `Pago` is a
complete no-op, so once the charge has transitioned it cannot transition
again — it is marked paid exactly once, whatever the settlement order. -/
theorem C2_cascata (st : CobrancaComParcelas) (i : ℕ) (input : ValorForm)
    (hoje : Dia) :
    (∀ st' v, marcar_parcela_paga_cascata st i input hoje = some (st', v) →
       ((∀ q ∈ st'.parcelas, q.status = "Pago") →
          st'.cobranca.status = "Pago" ∧
          st'.cobranca.data_pagamento = some hoje) ∧
       ((∃ q ∈ st'.parcelas, q.status = "Pendente") →
          st'.cobranca.status = st.cobranca.status ∧
          st'.cobranca.data_pagamento = st.cobranca.data_pagamento)) ∧
    (∀ p, st.parcelas.get? i = some p → p.status = "Pago" →
       marcar_parcela_paga_cascata st i input hoje = none) := by
  constructor
  · intro st' v h
    cases hg : st.parcelas.get? i with
    | none =>
      rw [marcar_parcela_paga_cascata, hg] at h
      exact absurd h (by simp)
    | some p =>
      cases hm : marcar_parcela_paga p input hoje with
      | aplicado p' r =>
        rw [marcar_parcela_paga_cascata, hg] at h
        simp only [hm] at h
        by_cases hall : (st.parcelas.set i p').all (fun q => q.status == "Pago") = true
        · simp only [hall, if_true, Option.some.injEq, Prod.mk.injEq] at h
          obtain ⟨hst, -⟩ := h
          subst hst
          constructor
          · intro _
            exact ⟨rfl, rfl⟩
          · rintro ⟨q, hqmem, hqs⟩
            have := List.all_eq_true.mp hall q hqmem
            rw [beq_iff_eq] at this
            rw [this] at hqs
            exact absurd hqs (by simp)
        · simp only [hall, if_false, Option.some.injEq, Prod.mk.injEq] at h
          obtain ⟨hst, -⟩ := h
          subst hst
          constructor
          · intro hforall
            exact absurd (List.all_eq_true.mpr
              (fun q hq => beq_iff_eq.mpr (hforall q hq))) hall
          · intro _
            exact ⟨rfl, rfl⟩
      | jaPaga =>
        rw [marcar_parcela_paga_cascata, hg] at h
        simp only [hm] at h
        exact absurd h (by simp)
      | valorInvalido =>
        rw [marcar_parcela_paga_cascata, hg] at h
        simp only [hm] at h
        exact absurd h (by simp)
      | semSaldo =>
        rw [marcar_parcela_paga_cascata, hg] at h
        simp only [hm] at h
        exact absurd h (by simp)
  · intro p hp hps
    have hm : marcar_parcela_paga p input hoje = .jaPaga := by
      simp only [marcar_parcela_paga]
      rw [if_pos (Or.inl hps)]
    rw [marcar_parcela_paga_cascata, hp]
    simp only [hm]

/-- Witness for C2: settling the last pending installment of `estadoC2` on
day 20 cascades — the charge ends `Pago`, dated day 20. -/
theorem C2_cascata_witness :
    estadoC2p.cobranca.status = "Pago" ∧
    estadoC2p.cobranca.data_pagamento = some 20 :=
  ((C2_cascata estadoC2 1 .ausente 20).1 estadoC2p 50
    (by
      norm_num [marcar_parcela_paga_cascata, marcar_parcela_paga, q2, rhe,
        saldo_restante, valor_devido, valor_pago_existente, estadoC2, estadoC2p,
        parcelaC2a, parcelaC2b, parcelaC2b', cobrancaC2, cobrancaC2p, max_def]
      simp
      norm_num)).1
    (by decide)

/-- C4 counterexample: on a pending charge whose single pending installment
has face value 100 and stored `valor_pago` 40, the portfolio aggregation of
the dashboard and `api_relatorios_kpis` reports 100 — it does not subtract
the installment's own `valor_pago` — while the spec's clamped formula says
60. -/
theorem C4_counterexample :
    saldo_devedor_total [cobrancaC4] = 100 ∧
    saldo_devedor_spec [cobrancaC4] = 60 ∧
    saldo_devedor_total [cobrancaC4] ≠ saldo_devedor_spec [cobrancaC4] := by
  refine ⟨?_, ?_, ?_⟩ <;>
    norm_num [saldo_devedor_total, saldo_devedor_spec,
      saldo_devedor_cobranca_cliente, valor_parcela_atualizado, cobrancaC4,
      max_def]

/-- C4 (amended): only the per-client view subtracts each pending
installment's own `valor_pago` (clamped at zero), as the spec's formula
says; the portfolio and per-company dashboard aggregations sum
`valor + multa_manual` over pending installments of pending charges without
subtracting `valor_pago`, so for non-negative stored amounts the spec's
formula is a lower bound of the dashboard figure, the two agreeing whenever
nothing has been paid on any pending installment of a pending charge in
scope. -/
theorem C4_saldo_spec_vs_dashboard (cobrancas : List CobrancaComParcelas)
    (hpos : ∀ c ∈ cobrancas, ∀ p ∈ c.parcelas,
      0 ≤ p.valor_pago.getD 0 ∧ 0 ≤ valor_parcela_atualizado p) :
    saldo_devedor_spec cobrancas ≤ saldo_devedor_total cobrancas ∧
    ((∀ c ∈ cobrancas, c.cobranca.status = "Pendente" →
        ∀ p ∈ c.parcelas, p.status = "Pendente" → p.valor_pago.getD 0 = 0) →
      saldo_devedor_spec cobrancas = saldo_devedor_total cobrancas) := by
  constructor
  · unfold saldo_devedor_spec saldo_devedor_total saldo_devedor_cobranca_cliente
    apply List.sum_le_sum
    intro c hc
    apply List.sum_le_sum
    intro p hp
    obtain ⟨h1, h2⟩ :=
      hpos c (List.mem_of_mem_filter hc) p (List.mem_of_mem_filter hp)
    apply max_le
    · linarith
    · exact h2
  · intro hzero
    unfold saldo_devedor_spec saldo_devedor_total saldo_devedor_cobranca_cliente
    congr 1
    apply List.map_congr_left
    intro c hc
    congr 1
    apply List.map_congr_left
    intro p hp
    obtain ⟨hcmem, hcst⟩ := List.mem_filter.mp hc
    obtain ⟨hpmem, hpst⟩ := List.mem_filter.mp hp
    have hz := hzero c hcmem (beq_iff_eq.mp hcst) p hpmem (beq_iff_eq.mp hpst)
    have h2 := (hpos c hcmem p hpmem).2
    rw [hz, sub_zero]
    exact max_eq_left h2

/-- Witness for C4 (amended): on a portfolio whose only pending installment
has nothing paid, the spec formula is bounded by the dashboard figure. -/
theorem C4_saldo_spec_vs_dashboard_witness :
    saldo_devedor_spec [cobrancaC4w] ≤ saldo_devedor_total [cobrancaC4w] :=
  (C4_saldo_spec_vs_dashboard [cobrancaC4w]
    (by
      intro c hc p hp
      simp only [List.mem_singleton] at hc
      subst hc
      simp only [cobrancaC4w, List.mem_singleton] at hp
      subst hp
      norm_num [valor_parcela_atualizado])).1

/-- C9: for a non-paid charge with a due date, `calcular_valor_atualizado`
returns — once today is past the due date and the days late exceed the
configured tolerance — a penalty of `principal × (penalty_rate/100)`,
interest of `principal × (interest_rate/100) × (daysLate/30)` and a total of
`principal + penalty + interest - discount` (each rounded to cents);
otherwise zero penalty and interest and `principal - discount`; and missing
configuration keys fall back to the defaults (3 days, 10%, 2%) instead of
failing. -/
theorem C9_calculo (cob : CobrancaCalc) (cfg : Configuracoes) (hoje : Dia)
    (apos : Bool) (venc : Dia)
    (hv : cob.data_vencimento = some venc) (hs : cob.status ≠ "Pago") :
    (venc < hoje → cfg.dias_tolerancia.getD 3 < ((hoje - venc : ℕ) : ℤ) →
       calcular_valor_atualizado cob cfg hoje apos =
         { multa := q2 (cob.valor_original * (cfg.taxa_multa.getD 10 / 100))
           juros := q2 (cob.valor_original * (cfg.taxa_juros_mensal.getD 2 / 100) *
             (((hoje - venc : ℕ) : ℚ) / 30))
           valor_total := q2 (cob.valor_original +
             cob.valor_original * (cfg.taxa_multa.getD 10 / 100) +
             cob.valor_original * (cfg.taxa_juros_mensal.getD 2 / 100) *
               (((hoje - venc : ℕ) : ℚ) / 30) - cob.desconto)
           dias_atraso := hoje - venc }) ∧
    ((¬ (venc < hoje ∨ (venc = hoje ∧ apos = true)) ∨
        ((hoje - venc : ℕ) : ℤ) ≤ cfg.dias_tolerancia.getD 3) →
       calcular_valor_atualizado cob cfg hoje apos =
         { multa := 0, juros := 0,
           valor_total := cob.valor_original - cob.desconto, dias_atraso := 0 }) ∧
    (calcular_valor_atualizado cob ⟨none, none, none⟩ hoje apos =
       calcular_valor_atualizado cob ⟨some 3, some 10, some 2⟩ hoje apos) := by
  refine ⟨?_, ?_, ?_⟩
  · intro hlt htol
    simp only [calcular_valor_atualizado, hv]
    rw [if_pos ⟨hs, Or.inl hlt⟩, if_pos htol]
  · intro hor
    simp only [calcular_valor_atualizado, hv]
    rcases hor with hng | htol
    · rw [if_neg (fun hand => hng hand.2)]
    · by_cases hgt : cob.status ≠ "Pago" ∧ (venc < hoje ∨ (venc = hoje ∧ apos = true))
      · rw [if_pos hgt, if_neg (not_lt.mpr htol)]
      · rw [if_neg hgt]
  · rfl

/-- Witness for C9: a 200.00 charge due day 100 evaluated on day 110 with a
3-day tolerance, 10% penalty and 2% monthly interest takes the penalty
branch with 10 days late. -/
theorem C9_calculo_witness :
    calcular_valor_atualizado cobrancaC9 cfgC9 110 false =
      { multa := q2 (cobrancaC9.valor_original * (cfgC9.taxa_multa.getD 10 / 100))
        juros := q2 (cobrancaC9.valor_original * (cfgC9.taxa_juros_mensal.getD 2 / 100) *
          (((110 - 100 : ℕ) : ℚ) / 30))
        valor_total := q2 (cobrancaC9.valor_original +
          cobrancaC9.valor_original * (cfgC9.taxa_multa.getD 10 / 100) +
          cobrancaC9.valor_original * (cfgC9.taxa_juros_mensal.getD 2 / 100) *
            (((110 - 100 : ℕ) : ℚ) / 30) - cobrancaC9.desconto)
        dias_atraso := 110 - 100 } :=
  (C9_calculo cobrancaC9 cfgC9 110 false 100 rfl (by decide)).1
    (by norm_num) (by decide)

end AGCRM
